import Mathlib

/-!
Shallow embedding of the `tpchgen-cli` partition planner and CLI helpers
(`src/tpchgen-cli/src/plan.rs`, `src/tpchgen-cli/src/main.rs`) together with
proofs about the generation-plan claims.

Conventions of the embedding:
* Rust `i32` values are carried as `ℤ`; every `i32` operation that can
  overflow goes through `wrap32` (two's-complement wrapping, the release-profile
  semantics of Rust integer overflow).
* Rust `i64` quantities in the auto-partitioned path are carried as `ℤ`
  directly: all values reached by the claims stay far below `2 ^ 63`.
* `GenerationPlan::new` returns `Self` in Rust and can only `panic!`; a panic
  is modelled as `Except.error msg` carrying the panic message, and a normal
  return as `Except.ok`.
* The external row-count functions (`XGenerator::calculate_row_count`, from the
  `tpchgen` crate, outside this crate's sources) are an explicit parameter
  `rc : Table → ℕ` giving each generator's `calculate_row_count(sf, 1, 1)`.
-/

namespace Tpchgen

/-- The eight TPC-H tables, mirroring `enum Table` in `main.rs`. -/
inductive Table where
  | nation
  | region
  | part
  | supplier
  | partsupp
  | customer
  | orders
  | lineitem
deriving DecidableEq

/-- Output formats, mirroring `enum OutputFormat` in `main.rs`. -/
inductive OutputFormat where
  | tbl
  | csv
  | parquet
deriving DecidableEq

/-- Mirrors `struct GenerationPlan` of `plan.rs`: a total part count and the
list of part numbers this invocation generates. -/
structure GenerationPlan where
  part_count : ℤ
  part_list : List ℤ
deriving DecidableEq

/-- Two's-complement wrapping into the `i32` range, the behaviour of Rust
`i32` arithmetic in release builds and of `usize as i32` casts. -/
def wrap32 (x : ℤ) : ℤ := (x + 2147483648) % 4294967296 - 2147483648

/-- `i32` multiplication (wrapping). -/
def i32Mul (a b : ℤ) : ℤ := wrap32 (a * b)

/-- `i32` addition (wrapping). -/
def i32Add (a b : ℤ) : ℤ := wrap32 (a + b)

/-- `i32` subtraction (wrapping). -/
def i32Sub (a b : ℤ) : ℤ := wrap32 (a - b)

/-- The `num_threads as i32` cast of `plan.rs`: a `usize` truncated to the low
32 bits and reinterpreted as signed. -/
def usizeToI32 (n : ℕ) : ℤ := wrap32 n

/-- `(a..=b).collect::<Vec<i32>>()`: the ascending integers from `a` to `b`
inclusive, empty when `b < a`. -/
def rangeList (a b : ℤ) : List ℤ :=
  (List.range (b - a + 1).toNat).map (fun i : ℕ => a + (i : ℤ))

/-- The `match table` of `plan.rs` lines 121-146: the per-table pair
`(avg_row_size_bytes, row_count)` used by the auto-partitioned path.
`rc` stands for the external generators' `calculate_row_count(sf, 1, 1)`;
the lineitem arm estimates its row count as 4 times the orders count,
exactly as the source does. -/
def avgRowSizeAndRowCount (table : Table) (rc : Table → ℕ) : ℤ × ℤ :=
  match table with
  | .nation => (88, 1)
  | .region => (77, 1)
  | .part => (115, (rc .part : ℤ))
  | .supplier => (140, (rc .supplier : ℤ))
  | .partsupp => (148, (rc .partsupp : ℤ))
  | .customer => (160, (rc .customer : ℤ))
  | .orders => (114, (rc .orders : ℤ))
  | .lineitem => (128, 4 * (rc .orders : ℤ))

/-- `plan.rs` lines 147-154: `num_parts` before the `i32` conversion —
`row_count * avg_row_size_bytes / (15 * 1024 * 1024) + 1`, capped at 32767
row groups for Parquet output. -/
def autoNumParts (table : Table) (format : OutputFormat) (rc : Table → ℕ) : ℤ :=
  let p := avgRowSizeAndRowCount table rc
  let numParts := p.2 * p.1 / (15 * 1024 * 1024) + 1
  if format = OutputFormat.parquet then min numParts 32767 else numParts

/-- The `panic!` message of `plan.rs` lines 85-89 (the `\`-continued string
literal collapses to a single line). -/
def invalidCliPartMessage (cli_part cli_part_count : ℤ) : String :=
  "Invalid CLI part or part count. Expect greater than 1 and cli_part <= cli_part_count. Got: cli_part="
    ++ toString cli_part ++ ", cli_part_count=" ++ toString cli_part_count

/-- Shallow embedding of `GenerationPlan::new` (`plan.rs` lines 64-164).
`Except.error msg` models a `panic!` with message `msg` (there are two panic
sites: the CLI-argument sanity check, and `try_into::<i32>().unwrap()` on the
computed part count). -/
def GenerationPlan.new (table : Table) (format : OutputFormat) (rc : Table → ℕ)
    (cli_part cli_part_count : ℤ) (num_threads : ℕ) : Except String GenerationPlan :=
  if cli_part ≠ -1 ∨ cli_part_count ≠ -1 then
    if table = Table.nation ∨ table = Table.region then
      Except.ok ⟨1, [1]⟩
    else if cli_part < 1 ∨ cli_part_count < 1 ∨ cli_part > cli_part_count then
      Except.error (invalidCliPartMessage cli_part cli_part_count)
    else
      Except.ok ⟨i32Mul cli_part_count (usizeToI32 num_threads),
        rangeList (i32Add (i32Mul (i32Sub cli_part 1) (usizeToI32 num_threads)) 1)
          (i32Mul cli_part (usizeToI32 num_threads))⟩
  else
    if -2147483648 ≤ autoNumParts table format rc ∧ autoNumParts table format rc ≤ 2147483647 then
      Except.ok ⟨autoNumParts table format rc, rangeList 1 (autoNumParts table format rc)⟩
    else
      Except.error "called `Result::unwrap()` on an `Err` value: TryFromIntError(())"

deriving instance DecidableEq for Except

/-- Shallow embedding of `impl FromStr for Table` (`main.rs` lines 218-230),
with `none` for `Err("Invalid table name {s}")`.  The arms appear in source
order; each Rust or-pattern becomes a disjunction. -/
def Table.from_str (s : String) : Option Table :=
  if s = "n" ∨ s = "nation" then some Table.nation
  else if s = "r" ∨ s = "region" then some Table.region
  else if s = "s" ∨ s = "supplier" then some Table.supplier
  else if s = "P" ∨ s = "part" then some Table.part
  else if s = "S" ∨ s = "partsupp" then some Table.partsupp
  else if s = "c" ∨ s = "customer" then some Table.customer
  else if s = "O" ∨ s = "orders" then some Table.orders
  else if s = "L" ∨ s = "lineitem" then some Table.lineitem
  else none

/-- The table-name mapping exactly as the spec words it (claim C8): the eight
full names and their case-sensitive single-letter aliases, in the spec's
listing order, and no other string. -/
def claimTableOf (s : String) : Option Table :=
  if s = "nation" ∨ s = "n" then some Table.nation
  else if s = "region" ∨ s = "r" then some Table.region
  else if s = "supplier" ∨ s = "s" then some Table.supplier
  else if s = "customer" ∨ s = "c" then some Table.customer
  else if s = "part" ∨ s = "P" then some Table.part
  else if s = "partsupp" ∨ s = "S" then some Table.partsupp
  else if s = "orders" ∨ s = "O" then some Table.orders
  else if s = "lineitem" ∨ s = "L" then some Table.lineitem
  else none

/-- The per-table `avg_row_bytes` constants exactly as the claims tabulate
them (spec §4.A: nation 88, region 77, part 115, supplier 140, partsupp 148,
customer 160, orders 114, lineitem 128). -/
def claimAvgRowBytes : Table → ℤ
  | .nation => 88
  | .region => 77
  | .part => 115
  | .supplier => 140
  | .partsupp => 148
  | .customer => 160
  | .orders => 114
  | .lineitem => 128

/-- The `rows` quantity of the auto-partition formula, stated claim-side: the
table's generator row count, with the spec's special value 1 for nation and
region, and — as the amendment to claim C1 records — the code's estimate of
4 × the orders generator count for lineitem. -/
def claimRows (rc : Table → ℕ) : Table → ℤ
  | .nation => 1
  | .region => 1
  | .part => (rc .part : ℤ)
  | .supplier => (rc .supplier : ℤ)
  | .partsupp => (rc .partsupp : ℤ)
  | .customer => (rc .customer : ℤ)
  | .orders => (rc .orders : ℤ)
  | .lineitem => 4 * (rc .orders : ℤ)

/-- The auto-partition part count as amended claim C1 states it:
`⌊rows * avg_row_bytes / (15 * 2^20)⌋ + 1` (floor, i.e. integer division),
capped at 32767 for Parquet. -/
def amendedPartCount (table : Table) (format : OutputFormat) (rc : Table → ℕ) : ℤ :=
  let n := claimRows rc table * claimAvgRowBytes table / (15 * 2 ^ 20) + 1
  if format = OutputFormat.parquet then min n 32767 else n

/-- The auto-partition part count exactly as original claim C1 states it:
`⌈rows * avg_row_bytes / (15 * 2^20)⌉ + 1` (ceiling division), capped at
32767 for Parquet. -/
def claimC1PartCount (table : Table) (format : OutputFormat) (rc : Table → ℕ) : ℤ :=
  let n := (claimRows rc table * claimAvgRowBytes table + 15 * 2 ^ 20 - 1) / (15 * 2 ^ 20) + 1
  if format = OutputFormat.parquet then min n 32767 else n

/-- Modelled from the spec: the external generators'
`calculate_row_count(1.0, 1, 1)` (the `tpchgen` crate is outside these
sources; spec §1 treats the row generators as opaque).  The values are the
TPC-H base cardinalities at scale factor 1; with them `GenerationPlan.new`
reproduces every scale-factor-1 expectation of the unit tests in `plan.rs`
(see `new_matches_sf1_unit_tests` below). -/
def sf1RowCounts : Table → ℕ
  | .nation => 25
  | .region => 5
  | .part => 200000
  | .supplier => 10000
  | .partsupp => 200000
  | .customer => 150000
  | .orders => 1500000
  | .lineitem => 6000000

/-- Modelled from the spec: the generators' row counts at scale factor 10,
used to reproduce the `sf10_lineitem_*` unit tests of `plan.rs`. -/
def sf10RowCounts : Table → ℕ
  | .nation => 25
  | .region => 5
  | .part => 2000000
  | .supplier => 100000
  | .partsupp => 2000000
  | .customer => 1500000
  | .orders => 15000000
  | .lineitem => 60000000

/-- Modelled from the spec: the generators' row counts at scale factor 1000,
used to reproduce the `sf1000_lineitem_*` unit tests of `plan.rs`. -/
def sf1000RowCounts : Table → ℕ
  | .nation => 25
  | .region => 5
  | .part => 200000000
  | .supplier => 10000000
  | .partsupp => 200000000
  | .customer => 150000000
  | .orders => 1500000000
  | .lineitem => 6000000000

/-- A row-count assignment large enough that the auto-partitioned path
computes more than `i32::MAX` parts (reachable at a sufficiently large scale
factor; used for claim C10). -/
def bigRowCounts : Table → ℕ := fun _ => 10 ^ 16

/-- Modelled from the spec (§3, §4.F): the `WriteStatistics` counters of the
`statistics` module (not under these sources) — a pair of monotonically
increasing chunk and byte counts. -/
structure WriteStatistics where
  chunks : ℕ
  bytes : ℕ
deriving DecidableEq

/-- Modelled from the spec: `increment_chunks` adds to the chunk counter. -/
def WriteStatistics.increment_chunks (s : WriteStatistics) (n : ℕ) : WriteStatistics :=
  { s with chunks := s.chunks + n }

/-- Modelled from the spec: `increment_bytes` adds to the byte counter. -/
def WriteStatistics.increment_bytes (s : WriteStatistics) (n : ℕ) : WriteStatistics :=
  { s with bytes := s.bytes + n }

/-- Model of the underlying `W: Write` stream: the bytes handed to it so far
(`write_all` appends them verbatim) and how many times it has been flushed. -/
structure ByteStream where
  written : List ℕ
  flushes : ℕ
deriving DecidableEq

/-- `std::io::Write::write_all`: appends the whole buffer to the stream. -/
def ByteStream.write_all (w : ByteStream) (buffer : List ℕ) : ByteStream :=
  { w with written := w.written ++ buffer }

/-- `std::io::Write::flush` on the underlying stream. -/
def ByteStream.flushStream (w : ByteStream) : ByteStream :=
  { w with flushes := w.flushes + 1 }

/-- Mirrors `struct WriterSink<W>` of `main.rs`: write statistics plus the
inner stream. -/
structure WriterSink where
  statistics : WriteStatistics
  inner : ByteStream
deriving DecidableEq

/-- Shallow embedding of `WriterSink::sink` (`main.rs` lines 521-525):
increment the chunk counter by 1 and the byte counter by `buffer.len()`,
then `write_all` the buffer to the inner stream. -/
def WriterSink.sink (w : WriterSink) (buffer : List ℕ) : WriterSink :=
  { statistics := (w.statistics.increment_chunks 1).increment_bytes buffer.length,
    inner := w.inner.write_all buffer }

/-- Shallow embedding of `WriterSink::flush` (`main.rs` lines 527-529):
flush the inner stream. -/
def WriterSink.flush (w : WriterSink) : WriterSink :=
  { w with inner := w.inner.flushStream }

/-- A sequence of `sink` calls, for stating that the counters never decrease
across any sequence of calls. -/
def WriterSink.sinkAll (w : WriterSink) (buffers : List (List ℕ)) : WriterSink :=
  buffers.foldl WriterSink.sink w

/-- The disjointness-and-coverage property of claim C7, for a fixed table,
format, row counts, CLI part count `M` and thread count `T`: the part lists
produced by `GenerationPlan.new` for distinct CLI parts `k` are pairwise
disjoint, and their union over `k ∈ 1..=M` is exactly `1..=M*T`. -/
def partCoverage (table : Table) (format : OutputFormat) (rc : Table → ℕ)
    (M : ℤ) (T : ℕ) : Prop :=
  (∀ k1 k2 pl1 pl2, 1 ≤ k1 → k1 ≤ M → 1 ≤ k2 → k2 ≤ M → k1 ≠ k2 →
    GenerationPlan.new table format rc k1 M T = Except.ok pl1 →
    GenerationPlan.new table format rc k2 M T = Except.ok pl2 →
    ∀ x, x ∈ pl1.part_list → x ∉ pl2.part_list) ∧
  (∀ x : ℤ,
    (∃ k pl, 1 ≤ k ∧ k ≤ M ∧ GenerationPlan.new table format rc k M T = Except.ok pl ∧
      x ∈ pl.part_list) ↔ 1 ≤ x ∧ x ≤ M * (T : ℤ))

/-! ## Helper lemmas -/

theorem wrap32_eq_self (x : ℤ) (h1 : -2147483648 ≤ x) (h2 : x ≤ 2147483647) :
    wrap32 x = x := by
  unfold wrap32
  omega

theorem mem_rangeList {x a b : ℤ} : x ∈ rangeList a b ↔ a ≤ x ∧ x ≤ b := by
  unfold rangeList
  rw [List.mem_map]
  constructor
  · rintro ⟨i, hi, rfl⟩
    rw [List.mem_range] at hi
    omega
  · intro h
    refine ⟨(x - a).toNat, ?_, ?_⟩
    · rw [List.mem_range]
      omega
    · omega

theorem autoNumParts_pos (table : Table) (format : OutputFormat) (rc : Table → ℕ) :
    1 ≤ autoNumParts table format rc := by
  cases table <;> cases format <;>
    simp [autoNumParts, avgRowSizeAndRowCount, le_min_iff] <;> omega

theorem amendedPartCount_eq (table : Table) (format : OutputFormat) (rc : Table → ℕ) :
    amendedPartCount table format rc = autoNumParts table format rc := by
  cases table <;> cases format <;> rfl

theorem new_auto (table : Table) (format : OutputFormat) (rc : Table → ℕ) (T : ℕ)
    (h : autoNumParts table format rc ≤ 2147483647) :
    GenerationPlan.new table format rc (-1) (-1) T =
      Except.ok ⟨autoNumParts table format rc, rangeList 1 (autoNumParts table format rc)⟩ := by
  have h1 := autoNumParts_pos table format rc
  unfold GenerationPlan.new
  rw [if_neg (by simp), if_pos ⟨by omega, h⟩]

theorem new_cli (table : Table) (format : OutputFormat) (rc : Table → ℕ)
    (k M : ℤ) (T : ℕ)
    (hat : ¬(table = Table.nation ∨ table = Table.region))
    (hk1 : 1 ≤ k) (hkM : k ≤ M) (hT : 1 ≤ T)
    (hcap : M * (T : ℤ) ≤ 2147483647) :
    GenerationPlan.new table format rc k M T =
      Except.ok ⟨M * (T : ℤ), rangeList ((k - 1) * (T : ℤ) + 1) (k * (T : ℤ))⟩ := by
  have hM1 : 1 ≤ M := le_trans hk1 hkM
  have hT1 : (1 : ℤ) ≤ (T : ℤ) := by exact_mod_cast hT
  have hTM : (T : ℤ) ≤ M * (T : ℤ) := le_mul_of_one_le_left (by omega) hM1
  have hM_MT : M ≤ M * (T : ℤ) := le_mul_of_one_le_right (by omega) hT1
  have hkT : k * (T : ℤ) ≤ M * (T : ℤ) := mul_le_mul_of_nonneg_right hkM (by omega)
  have hk1T : (k - 1) * (T : ℤ) ≤ (M - 1) * (T : ℤ) :=
    mul_le_mul_of_nonneg_right (by omega) (by omega)
  have hMT : (M - 1) * (T : ℤ) = M * (T : ℤ) - (T : ℤ) := by ring
  have h0k1T : 0 ≤ (k - 1) * (T : ℤ) := mul_nonneg (by omega) (by omega)
  have h0kT : 0 ≤ k * (T : ℤ) := mul_nonneg (by omega) (by omega)
  have h0MT : 0 ≤ M * (T : ℤ) := mul_nonneg (by omega) (by omega)
  have wT : usizeToI32 T = (T : ℤ) := wrap32_eq_self (T : ℤ) (by omega) (by linarith)
  unfold GenerationPlan.new
  rw [if_pos (Or.inl (by omega)), if_neg hat, if_neg (by omega)]
  rw [wT]
  unfold i32Mul i32Add i32Sub
  rw [wrap32_eq_self (k - 1) (by omega) (by linarith),
    wrap32_eq_self ((k - 1) * (T : ℤ)) (by linarith) (by linarith),
    wrap32_eq_self ((k - 1) * (T : ℤ) + 1) (by linarith) (by linarith),
    wrap32_eq_self (k * (T : ℤ)) (by linarith) (by linarith),
    wrap32_eq_self (M * (T : ℤ)) (by linarith) (by linarith)]

/-! ## Validation against the unit tests of `plan.rs`

With the modelled scale-factor row counts, the embedding reproduces every
expectation of the `#[cfg(test)]` module of `plan.rs` (which fixes
`num_cpus = 4`). -/

theorem new_matches_sf1_unit_tests :
    GenerationPlan.new Table.nation OutputFormat.tbl sf1RowCounts (-1) (-1) 4 =
      Except.ok ⟨1, [1]⟩ ∧
    GenerationPlan.new Table.region OutputFormat.tbl sf1RowCounts (-1) (-1) 4 =
      Except.ok ⟨1, [1]⟩ ∧
    GenerationPlan.new Table.part OutputFormat.tbl sf1RowCounts (-1) (-1) 4 =
      Except.ok ⟨2, [1, 2]⟩ ∧
    GenerationPlan.new Table.supplier OutputFormat.tbl sf1RowCounts (-1) (-1) 4 =
      Except.ok ⟨1, [1]⟩ ∧
    GenerationPlan.new Table.partsupp OutputFormat.tbl sf1RowCounts (-1) (-1) 4 =
      Except.ok ⟨2, [1, 2]⟩ ∧
    GenerationPlan.new Table.customer OutputFormat.tbl sf1RowCounts (-1) (-1) 4 =
      Except.ok ⟨2, [1, 2]⟩ ∧
    GenerationPlan.new Table.orders OutputFormat.tbl sf1RowCounts (-1) (-1) 4 =
      Except.ok ⟨11, rangeList 1 11⟩ ∧
    GenerationPlan.new Table.lineitem OutputFormat.tbl sf1RowCounts (-1) (-1) 4 =
      Except.ok ⟨49, rangeList 1 49⟩ := by
  decide

theorem new_matches_cli_unit_tests :
    GenerationPlan.new Table.nation OutputFormat.tbl sf1RowCounts 1 10 4 =
      Except.ok ⟨1, [1]⟩ ∧
    GenerationPlan.new Table.region OutputFormat.tbl sf1RowCounts 1 10 4 =
      Except.ok ⟨1, [1]⟩ ∧
    GenerationPlan.new Table.lineitem OutputFormat.tbl sf1RowCounts 1 10 4 =
      Except.ok ⟨40, [1, 2, 3, 4]⟩ ∧
    GenerationPlan.new Table.lineitem OutputFormat.tbl sf1RowCounts 4 10 4 =
      Except.ok ⟨40, [13, 14, 15, 16]⟩ ∧
    GenerationPlan.new Table.lineitem OutputFormat.tbl sf1RowCounts 10 10 4 =
      Except.ok ⟨40, [37, 38, 39, 40]⟩ := by
  decide

theorem new_matches_large_sf_unit_tests :
    autoNumParts Table.lineitem OutputFormat.parquet sf10RowCounts = 489 ∧
    autoNumParts Table.lineitem OutputFormat.tbl sf10RowCounts = 489 ∧
    autoNumParts Table.lineitem OutputFormat.tbl sf1000RowCounts = 48829 ∧
    autoNumParts Table.lineitem OutputFormat.parquet sf1000RowCounts = 32767 := by
  decide

/-! ## The claims -/

/-- Claim C1, counterexample: at the orders table, scale factor 1 (generator
row count 1 500 000, as pinned by the `sf1_orders` unit test of `plan.rs`),
the code produces 11 parts while the claim's ceiling formula
`⌈rows * avg_row_bytes / (15 * 2^20)⌉ + 1` predicts 12; this holds for every
row count consistent with that unit test, since `rows * 114` is never an
exact multiple of `15 * 2^20` in the admissible range. -/
theorem C1_counterexample :
    GenerationPlan.new Table.orders OutputFormat.tbl sf1RowCounts (-1) (-1) 4 =
      Except.ok ⟨11, rangeList 1 11⟩ ∧
    claimC1PartCount Table.orders OutputFormat.tbl sf1RowCounts = 12 ∧
    (11 : ℤ) ≠ 12 := by
  refine ⟨by decide, by decide, by decide⟩

/-- Claim C1, amended: for every non-atomic table, any generator row counts
and any format, with no CLI partitioning requested, the plan's part count is
`⌊rows * avg_row_bytes / (15 * 2^20)⌋ + 1` (floor, i.e. integer division, not
ceiling), with `rows` the code's per-table estimate (for lineitem, 4 × the
orders generator count), capped at 32767 for Parquet — provided the capped
value fits in `i32` (otherwise the function panics, claim C10) — and the part
list is exactly `1..=part_count`. -/
theorem C1_amended (table : Table) (format : OutputFormat) (rc : Table → ℕ) (T : ℕ)
    (_hat : ¬(table = Table.nation ∨ table = Table.region))
    (hfit : amendedPartCount table format rc ≤ 2147483647) :
    GenerationPlan.new table format rc (-1) (-1) T =
      Except.ok ⟨amendedPartCount table format rc,
        rangeList 1 (amendedPartCount table format rc)⟩ := by
  rw [amendedPartCount_eq]
  rw [amendedPartCount_eq] at hfit
  exact new_auto table format rc T hfit

/-- Witness for `C1_amended` at the customer table, scale factor 1. -/
theorem C1_witness :
    GenerationPlan.new Table.customer OutputFormat.tbl sf1RowCounts (-1) (-1) 4 =
      Except.ok ⟨amendedPartCount Table.customer OutputFormat.tbl sf1RowCounts,
        rangeList 1 (amendedPartCount Table.customer OutputFormat.tbl sf1RowCounts)⟩ :=
  C1_amended Table.customer OutputFormat.tbl sf1RowCounts 4 (by decide) (by decide)

/-- Claim C2, counterexample: with CLI partitioning (`--part 1 --parts 40000`,
one thread) and Parquet output, the plan's part count is 40000 > 32767: the
32767 row-group cap is applied only on the auto-partitioned path. -/
theorem C2_counterexample :
    GenerationPlan.new Table.orders OutputFormat.parquet sf1RowCounts 1 40000 1 =
      Except.ok ⟨40000, rangeList 1 1⟩ ∧
    ¬((40000 : ℤ) ≤ 32767) := by
  refine ⟨by decide, by decide⟩

/-- Claim C2, amended: for every input with `format == Parquet` and no CLI
partitioning requested (`cli_part = cli_part_count = -1`), any plan returned
by `GenerationPlan::new` has `part_count ≤ 32767`. -/
theorem C2_amended (table : Table) (rc : Table → ℕ) (T : ℕ) (pl : GenerationPlan)
    (h : GenerationPlan.new table OutputFormat.parquet rc (-1) (-1) T = Except.ok pl) :
    pl.part_count ≤ 32767 := by
  have hcap : autoNumParts table OutputFormat.parquet rc ≤ 32767 := by
    cases table <;> simp [autoNumParts, avgRowSizeAndRowCount]
  rw [new_auto table OutputFormat.parquet rc T (le_trans hcap (by norm_num))] at h
  injection h with h2
  subst h2
  exact hcap

/-- Witness for `C2_amended` at the customer table, scale factor 1. -/
theorem C2_witness :
    GenerationPlan.new Table.customer OutputFormat.parquet sf1RowCounts (-1) (-1) 4 =
      Except.ok ⟨2, rangeList 1 2⟩ ∧
    ((⟨2, rangeList 1 2⟩ : GenerationPlan).part_count ≤ 32767) :=
  ⟨by decide, C2_amended Table.customer sf1RowCounts 4 ⟨2, rangeList 1 2⟩ (by decide)⟩

/-- Claim C3, counterexample: at `cli_part = 1`, `cli_part_count = M =
2147483647` (a valid `i32` CLI value), `num_threads = T = 2`, the claim
demands `part_count = M*T = 4294967294`, which does not fit in the `i32`
`part_count` field: the code's `i32` multiplication wraps to `-2` (release
profile; a debug build would panic on the overflow — either way no plan with
`part_count = M*T` is returned). -/
theorem C3_counterexample :
    GenerationPlan.new Table.lineitem OutputFormat.tbl sf1RowCounts 1 2147483647 2 =
      Except.ok ⟨-2, rangeList 1 2⟩ ∧
    GenerationPlan.new Table.lineitem OutputFormat.tbl sf1RowCounts 1 2147483647 2 ≠
      Except.ok ⟨(2147483647 : ℤ) * 2, rangeList ((1 - 1) * 2 + 1) (1 * 2)⟩ := by
  refine ⟨by decide, by decide⟩

/-- Claim C3, amended: for every non-atomic table, any format and row counts,
`cli_part_count = M ≥ 1`, `num_threads = T ≥ 1` and `cli_part = k ∈ 1..=M`,
provided `M*T ≤ i32::MAX`, `GenerationPlan::new` returns `part_count = M*T`
and `part_list = (k-1)*T+1 ..= k*T`. -/
theorem C3_amended (table : Table) (format : OutputFormat) (rc : Table → ℕ)
    (k M : ℤ) (T : ℕ)
    (hat : ¬(table = Table.nation ∨ table = Table.region))
    (_hM : 1 ≤ M) (hk1 : 1 ≤ k) (hkM : k ≤ M) (hT : 1 ≤ T)
    (hcap : M * (T : ℤ) ≤ 2147483647) :
    GenerationPlan.new table format rc k M T =
      Except.ok ⟨M * (T : ℤ), rangeList ((k - 1) * (T : ℤ) + 1) (k * (T : ℤ))⟩ :=
  new_cli table format rc k M T hat hk1 hkM hT hcap

/-- Witness for `C3_amended`: part 4 of 10 with 4 threads (the
`sf1_lineitem_cli_parts_4` unit-test configuration). -/
theorem C3_witness :
    GenerationPlan.new Table.lineitem OutputFormat.tbl sf1RowCounts 4 10 4 =
      Except.ok ⟨10 * ((4 : ℕ) : ℤ), rangeList ((4 - 1) * ((4 : ℕ) : ℤ) + 1)
        (4 * ((4 : ℕ) : ℤ))⟩ :=
  C3_amended Table.lineitem OutputFormat.tbl sf1RowCounts 4 10 4 (by decide) (by decide)
    (by decide) (by decide) (by decide) (by decide)

/-- Claim C4: for the atomic tables nation and region, `GenerationPlan::new`
returns the plan `(1, [1])` for every scale factor (row counts), format,
thread count, and every setting of the CLI partition flags, valid or not. -/
theorem C4_theorem (table : Table) (format : OutputFormat) (rc : Table → ℕ)
    (cli_part cli_part_count : ℤ) (T : ℕ)
    (h : table = Table.nation ∨ table = Table.region) :
    GenerationPlan.new table format rc cli_part cli_part_count T = Except.ok ⟨1, [1]⟩ := by
  unfold GenerationPlan.new
  by_cases hcli : cli_part ≠ -1 ∨ cli_part_count ≠ -1
  · rw [if_pos hcli, if_pos h]
  · rw [if_neg hcli]
    have hauto : autoNumParts table format rc = 1 := by
      rcases h with rfl | rfl <;> cases format <;> rfl
    rw [hauto, if_pos (by norm_num)]
    decide

/-- Witness for `C4_theorem`: nation with the invalid combination
`cli_part = 11 > cli_part_count = 10` still yields `(1, [1])`. -/
theorem C4_witness :
    GenerationPlan.new Table.nation OutputFormat.parquet sf1RowCounts 11 10 4 =
      Except.ok ⟨1, [1]⟩ :=
  C4_theorem Table.nation OutputFormat.parquet sf1RowCounts 11 10 4 (Or.inl rfl)

/-- Claim C5 (code bug): evaluating the code at the failing inputs. Contrary
to the claim (and to `main.rs`, whose call site expects a fallible
`try_new`, and to `tests/cli_integration.rs`), `GenerationPlan::new` checks
the atomic-table rule before flag coherence — nation and region return
`Ok((1, [1]))` under invalid flags — and for non-atomic tables the violation
is a `panic!`, not a recoverable `InvalidArgument` error. -/
theorem C5_code_behavior :
    GenerationPlan.new Table.nation OutputFormat.tbl sf1RowCounts 11 10 4 =
      Except.ok ⟨1, [1]⟩ ∧
    GenerationPlan.new Table.region OutputFormat.tbl sf1RowCounts 42 (-1) 4 =
      Except.ok ⟨1, [1]⟩ ∧
    GenerationPlan.new Table.supplier OutputFormat.tbl sf1RowCounts 42 (-1) 4 =
      Except.error "Invalid CLI part or part count. Expect greater than 1 and cli_part <= cli_part_count. Got: cli_part=42, cli_part_count=-1" := by
  refine ⟨by decide, by decide, by decide⟩

/-- Claim C6 (code bug): evaluating the code at the failing inputs. For
`--part 11 --parts 10` (and `--part 0 --parts 10`) on a non-atomic table the
code panics with the `plan.rs` message, which is not the message the claim
(and the repository's own `tests/cli_integration.rs`) expects. -/
theorem C6_code_behavior :
    GenerationPlan.new Table.lineitem OutputFormat.tbl sf1RowCounts 11 10 4 =
      Except.error "Invalid CLI part or part count. Expect greater than 1 and cli_part <= cli_part_count. Got: cli_part=11, cli_part_count=10" ∧
    ("Invalid CLI part or part count. Expect greater than 1 and cli_part <= cli_part_count. Got: cli_part=11, cli_part_count=10" ≠
      "Invalid --part. Expected at most the value of --parts (10), got 11") ∧
    GenerationPlan.new Table.lineitem OutputFormat.tbl sf1RowCounts 0 10 4 =
      Except.error "Invalid CLI part or part count. Expect greater than 1 and cli_part <= cli_part_count. Got: cli_part=0, cli_part_count=10" := by
  refine ⟨by decide, by decide, by decide⟩

/-- Claim C7, counterexample: at `cli_part = cli_part_count = M = 1` and
`num_threads = T = 2^31` (a valid `usize`), the `usize as i32` cast wraps, the
single part list comes out empty, and the union of the part lists over
`k ∈ 1..=M` misses `1 ∈ 1..=M*T`, so the coverage half of the claim fails. -/
theorem C7_counterexample :
    GenerationPlan.new Table.lineitem OutputFormat.tbl sf1RowCounts 1 1 2147483648 =
      Except.ok ⟨-2147483648, ([] : List ℤ)⟩ ∧
    ((1 : ℤ) ≤ 1 * (2147483648 : ℤ) ∧ (1 : ℤ) ∉ ([] : List ℤ)) := by
  refine ⟨by decide, by decide, by decide⟩

/-- Claim C7, amended: for every non-atomic table, `cli_part_count = M ≥ 1`
and `num_threads = T ≥ 1` with `M*T ≤ i32::MAX`, the part lists produced by
`GenerationPlan::new` for distinct `k ∈ 1..=M` are pairwise disjoint and
their union over all `k` is exactly `1..=M*T`. -/
theorem C7_amended (table : Table) (format : OutputFormat) (rc : Table → ℕ)
    (M : ℤ) (T : ℕ) (hat : ¬(table = Table.nation ∨ table = Table.region))
    (_hM : 1 ≤ M) (hT : 1 ≤ T) (hcap : M * (T : ℤ) ≤ 2147483647) :
    partCoverage table format rc M T := by
  have hT1 : (1 : ℤ) ≤ (T : ℤ) := by exact_mod_cast hT
  constructor
  · intro k1 k2 pl1 pl2 hk11 hk1M hk21 hk2M hne h1 h2 x hx1 hx2
    rw [new_cli table format rc k1 M T hat hk11 hk1M hT hcap] at h1
    rw [new_cli table format rc k2 M T hat hk21 hk2M hT hcap] at h2
    injection h1 with h1'
    injection h2 with h2'
    subst h1'
    subst h2'
    dsimp only at hx1 hx2
    rw [mem_rangeList] at hx1 hx2
    rcases lt_or_gt_of_ne hne with h | h
    · have hstep : k1 * (T : ℤ) ≤ (k2 - 1) * (T : ℤ) :=
        mul_le_mul_of_nonneg_right (by omega) (by omega)
      linarith [hx1.2, hx2.1]
    · have hstep : k2 * (T : ℤ) ≤ (k1 - 1) * (T : ℤ) :=
        mul_le_mul_of_nonneg_right (by omega) (by omega)
      linarith [hx2.2, hx1.1]
  · intro x
    constructor
    · rintro ⟨k, pl, hk1, hkM, heq, hx⟩
      rw [new_cli table format rc k M T hat hk1 hkM hT hcap] at heq
      injection heq with heq'
      subst heq'
      dsimp only at hx
      rw [mem_rangeList] at hx
      have hlow : 0 ≤ (k - 1) * (T : ℤ) := mul_nonneg (by omega) (by omega)
      have hhigh : k * (T : ℤ) ≤ M * (T : ℤ) := mul_le_mul_of_nonneg_right hkM (by omega)
      exact ⟨by linarith [hx.1], by linarith [hx.2]⟩
    · rintro ⟨hx1, hxM⟩
      have hTpos : (0 : ℤ) < (T : ℤ) := by omega
      have hdm : (T : ℤ) * ((x - 1) / (T : ℤ)) + (x - 1) % (T : ℤ) = x - 1 :=
        Int.ediv_add_emod (x - 1) (T : ℤ)
      have hr0 : 0 ≤ (x - 1) % (T : ℤ) := Int.emod_nonneg _ (by omega)
      have hrT : (x - 1) % (T : ℤ) < (T : ℤ) := Int.emod_lt_of_pos _ hTpos
      have hq0 : 0 ≤ (x - 1) / (T : ℤ) := Int.ediv_nonneg (by omega) (by omega)
      have hqM : (x - 1) / (T : ℤ) < M := by
        by_contra hc
        push_neg at hc
        have h2 : (T : ℤ) * M ≤ (T : ℤ) * ((x - 1) / (T : ℤ)) :=
          mul_le_mul_of_nonneg_left hc (by omega)
        have h3 : (T : ℤ) * M = M * (T : ℤ) := mul_comm _ _
        linarith
      refine ⟨(x - 1) / (T : ℤ) + 1,
        ⟨M * (T : ℤ), rangeList (((x - 1) / (T : ℤ) + 1 - 1) * (T : ℤ) + 1)
          (((x - 1) / (T : ℤ) + 1) * (T : ℤ))⟩, by omega, by omega, ?_, ?_⟩
      · exact new_cli table format rc ((x - 1) / (T : ℤ) + 1) M T hat (by omega) (by omega)
          hT hcap
      · dsimp only
        rw [mem_rangeList]
        have e1 : ((x - 1) / (T : ℤ) + 1 - 1) * (T : ℤ) = (T : ℤ) * ((x - 1) / (T : ℤ)) := by
          ring
        have e2 : ((x - 1) / (T : ℤ) + 1) * (T : ℤ) =
            (T : ℤ) * ((x - 1) / (T : ℤ)) + (T : ℤ) := by ring
        rw [e1, e2]
        exact ⟨by linarith, by linarith⟩

/-- Witness for `C7_amended`: 10 CLI parts, 4 threads, lineitem. -/
theorem C7_witness : partCoverage Table.lineitem OutputFormat.tbl sf1RowCounts 10 4 :=
  C7_amended Table.lineitem OutputFormat.tbl sf1RowCounts 10 4 (by decide) (by decide)
    (by decide) (by decide)

/-- Claim C8: `Table::from_str` accepts exactly the eight full table names
and their case-sensitive single-letter aliases, with the claimed mapping
(lower-case `s` is supplier, upper-case `S` is partsupp, ...), and rejects
every other string: it agrees with the spec-side lookup `claimTableOf` on
every input. -/
theorem C8_theorem : ∀ s : String, Table.from_str s = claimTableOf s := by
  intro s
  by_cases h1 : s = "n"
  · subst h1; decide
  by_cases h2 : s = "nation"
  · subst h2; decide
  by_cases h3 : s = "r"
  · subst h3; decide
  by_cases h4 : s = "region"
  · subst h4; decide
  by_cases h5 : s = "s"
  · subst h5; decide
  by_cases h6 : s = "supplier"
  · subst h6; decide
  by_cases h7 : s = "P"
  · subst h7; decide
  by_cases h8 : s = "part"
  · subst h8; decide
  by_cases h9 : s = "S"
  · subst h9; decide
  by_cases h10 : s = "partsupp"
  · subst h10; decide
  by_cases h11 : s = "c"
  · subst h11; decide
  by_cases h12 : s = "customer"
  · subst h12; decide
  by_cases h13 : s = "O"
  · subst h13; decide
  by_cases h14 : s = "orders"
  · subst h14; decide
  by_cases h15 : s = "L"
  · subst h15; decide
  by_cases h16 : s = "lineitem"
  · subst h16; decide
  unfold Table.from_str claimTableOf
  rw [if_neg (by tauto), if_neg (by tauto), if_neg (by tauto), if_neg (by tauto),
    if_neg (by tauto), if_neg (by tauto), if_neg (by tauto), if_neg (by tauto),
    if_neg (by tauto), if_neg (by tauto), if_neg (by tauto), if_neg (by tauto),
    if_neg (by tauto), if_neg (by tauto), if_neg (by tauto), if_neg (by tauto)]

/-- Witness for `C8_theorem`: upper-case `S` (partsupp). -/
theorem C8_witness : Table.from_str "S" = claimTableOf "S" :=
  C8_theorem "S"

/-- Claim C9: each `WriterSink::sink` call writes the buffer verbatim (in
full, appended unchanged) to the underlying stream, increments the chunk
counter by exactly 1 and the byte counter by exactly `buffer.len()`;
`WriterSink::flush` flushes the underlying stream (and writes nothing); and
across any sequence of `sink` calls the counters never decrease. -/
theorem C9_theorem :
    (∀ (w : WriterSink) (buffer : List ℕ),
      (w.sink buffer).inner.written = w.inner.written ++ buffer ∧
      (w.sink buffer).statistics.chunks = w.statistics.chunks + 1 ∧
      (w.sink buffer).statistics.bytes = w.statistics.bytes + buffer.length) ∧
    (∀ w : WriterSink,
      w.flush.inner.flushes = w.inner.flushes + 1 ∧
      w.flush.inner.written = w.inner.written) ∧
    (∀ (w : WriterSink) (buffers : List (List ℕ)),
      w.statistics.chunks ≤ (w.sinkAll buffers).statistics.chunks ∧
      w.statistics.bytes ≤ (w.sinkAll buffers).statistics.bytes) := by
  refine ⟨fun w buffer => ⟨rfl, rfl, rfl⟩, fun w => ⟨rfl, rfl⟩, fun w buffers => ?_⟩
  induction buffers generalizing w with
  | nil => exact ⟨le_refl _, le_refl _⟩
  | cons b bs ih =>
    refine ⟨le_trans ?_ (ih (w.sink b)).1, le_trans ?_ (ih (w.sink b)).2⟩
    · exact Nat.le_succ _
    · exact Nat.le_add_right _ _

/-- Witness for `C9_theorem`: a concrete sink state and buffer. -/
theorem C9_witness :
    (WriterSink.sink ⟨⟨3, 5⟩, ⟨[1], 0⟩⟩ [7, 8]).inner.written = [1] ++ [7, 8] ∧
    (WriterSink.sink ⟨⟨3, 5⟩, ⟨[1], 0⟩⟩ [7, 8]).statistics.chunks = 3 + 1 ∧
    (WriterSink.sink ⟨⟨3, 5⟩, ⟨[1], 0⟩⟩ [7, 8]).statistics.bytes = 5 + [7, 8].length :=
  C9_theorem.1 ⟨⟨3, 5⟩, ⟨[1], 0⟩⟩ [7, 8]

/-- Claim C10: on the auto-partitioned path the computed part count is
converted with `try_into::<i32>().unwrap()`, so whenever it exceeds
`i32::MAX` the function panics (modelled as the `unwrap` panic message)
instead of returning a plan or an error. -/
theorem C10_theorem (table : Table) (format : OutputFormat) (rc : Table → ℕ) (T : ℕ)
    (h : 2147483647 < autoNumParts table format rc) :
    GenerationPlan.new table format rc (-1) (-1) T =
      Except.error "called `Result::unwrap()` on an `Err` value: TryFromIntError(())" := by
  unfold GenerationPlan.new
  rw [if_neg (by simp), if_neg (by omega)]

/-- Witness for `C10_theorem`: generator row counts of `10^16` (reachable at a
sufficiently large scale factor) push the non-Parquet orders plan past
`i32::MAX` parts. -/
theorem C10_witness :
    2147483647 < autoNumParts Table.orders OutputFormat.tbl bigRowCounts ∧
    GenerationPlan.new Table.orders OutputFormat.tbl bigRowCounts (-1) (-1) 4 =
      Except.error "called `Result::unwrap()` on an `Err` value: TryFromIntError(())" :=
  ⟨by decide, C10_theorem Table.orders OutputFormat.tbl bigRowCounts 4 (by decide)⟩

end Tpchgen
